import Mathlib

/-!
Shallow embedding of the MsgX voice-call client core
(`src/services/voiceCallService.ts` and the audio routing helper),
with theorems checking the natural-language specification against it.

The service is single-threaded and event-driven; each socket handler or
public action runs to completion (or to its next awaited boundary), so we
model each handler as a pure function from the service state (plus the
payload and, where the real code awaits the network, an explicit record of
the responses the environment delivers) to a new service state together
with a list of observable effects (socket emissions, state broadcasts,
scheduled resets).
-/

namespace MsgX

/-- The `CallStatus` from voiceCallService.ts. -/
inductive CallStatus
  | idle
  | connecting
  | ringing
  | active
  | ended
  | rejected
  | missed
  | error
deriving DecidableEq, Repr

/-- Participant status in a group call. -/
inductive ParticipantStatus
  | ringing
  | active
  | left
  | disconnected
  | declined
  | offline
deriving DecidableEq, Repr

/-- The `GroupParticipant` from voiceCallService.ts. -/
structure GroupParticipant where
  userId : Nat
  userName : String
  isMuted : Bool
  status : ParticipantStatus
deriving DecidableEq, Repr

/-- The `CallState` from voiceCallService.ts (stream URLs modelled as optional
opaque strings). -/
structure CallState where
  status : CallStatus
  callId : Option String
  remoteUserId : Option Nat
  remoteUserName : Option String
  conversationId : Option String
  isCaller : Bool
  isMuted : Bool
  isPeerMuted : Bool
  duration : Nat
  error : Option String
  isGroupCall : Bool
  groupName : Option String
  participants : List GroupParticipant
  isVideoCall : Bool
  isCameraOn : Bool
  isFrontCamera : Bool
  isPeerCameraOn : Bool
  localVideoStreamURL : Option String
  remoteVideoStreamURL : Option String
deriving DecidableEq, Repr

/-- The `getDefaultState()` from voiceCallService.ts. -/
def getDefaultState : CallState where
  status := .idle
  callId := none
  remoteUserId := none
  remoteUserName := none
  conversationId := none
  isCaller := false
  isMuted := false
  isPeerMuted := false
  duration := 0
  error := none
  isGroupCall := false
  groupName := none
  participants := []
  isVideoCall := false
  isCameraOn := false
  isFrontCamera := true
  isPeerCameraOn := false
  localVideoStreamURL := none
  remoteVideoStreamURL := none

/-- A mediasoup producer: we track the pause flag that `toggleMute` /
`toggleCamera` drive. -/
structure Producer where
  paused : Bool
deriving DecidableEq, Repr

/-- Payload of a queued `call:newProducer` notification
(`pendingProducers` element type in voiceCallService.ts). -/
structure PendingProducer where
  callId : String
  producerId : String
  producerUserId : Nat
  kind : Option String
deriving DecidableEq, Repr

/-- Payload of a server-pushed `call:incoming` event. -/
structure IncomingCallData where
  callId : String
  callerId : Nat
  callerName : String
  conversationId : Option String
  isGroup : Bool
  isVideoCall : Bool
  groupName : Option String
deriving DecidableEq, Repr

/-- The mutable fields of the `VoiceCallService` class that the call
handlers touch: the authoritative `CallState` plus the media resources
(device, transports, producers, consumers, captured streams), the
pending-producer queue and the duration timer.  Transports, device and
streams are modelled by presence flags; `consumers` is the
`Map<producerId, consumer>` as an association list in insertion order. -/
structure Service where
  callState : CallState
  device : Bool
  sendTransport : Bool
  recvTransport : Bool
  producer : Option Producer
  videoProducer : Option Producer
  consumer : Option String
  consumers : List (String × String)
  localStream : Bool
  localVideoStream : Bool
  pendingProducers : List PendingProducer
  durationTimerRunning : Bool
deriving DecidableEq, Repr

/-- Observable effects of a handler: fire-and-forget socket emissions,
request/response emissions, state broadcasts to subscribers, scheduled
delayed resets, retry sleeps. -/
inductive Effect
  | emitReject (callId : String)
  | emitEnd (callId : String)
  | emitLeaveGroup (callId : String)
  | emitMute (callId : String) (isMuted : Bool)
  | consumeRequest (producerId : String)
  | resumeConsumer (consumerId : String)
  | broadcast (status : CallStatus)
  | notifyIncoming (callId : String)
  | scheduleReset (delayMs : Nat)
  | sleep (ms : Nat)
  | attemptStart (n : Nat)
  | mediaCleanup
deriving DecidableEq, Repr

/-- The `cleanupMediasoup()`: closes producers, consumers (clearing the map),
transports, stops captured tracks, drops the device.  Call state is not
touched. -/
def cleanupMediasoup (s : Service) : Service :=
  { s with
    producer := none
    videoProducer := none
    consumer := none
    consumers := []
    sendTransport := false
    recvTransport := false
    localStream := false
    localVideoStream := false
    device := false }

/-- The `stopDurationTimer()`. -/
def stopDurationTimer (s : Service) : Service :=
  { s with durationTimerRunning := false }

/-- The `startDurationTimer()` (stops any previous timer first). -/
def startDurationTimer (s : Service) : Service :=
  { s with durationTimerRunning := true }

/-- The `cleanupCall()`: stop the timer, release all mediasoup resources and
empty the pending-producer queue. -/
def cleanupCall (s : Service) : Service :=
  { cleanupMediasoup (stopDurationTimer s) with pendingProducers := [] }

/-- The `resetState()`: replace the call state by the default idle record
(and notify listeners).  Media resources are not touched. -/
def resetState (s : Service) : Service :=
  { s with callState := getDefaultState }

/-- The `resetStateSync()`: same state replacement without notification. -/
def resetStateSync (s : Service) : Service :=
  { s with callState := getDefaultState }

/-- All media resources are released and the queue/timer are clear:
what `cleanupCall` establishes. -/
def mediaCleared (s : Service) : Bool :=
  s.producer = none && s.videoProducer = none && s.consumer = none &&
  s.consumers = [] && !s.sendTransport && !s.recvTransport &&
  !s.localStream && !s.localVideoStream && !s.device &&
  s.pendingProducers = [] && !s.durationTimerRunning

/-- The `toggleMute()` from voiceCallService.ts: only acts while `active`;
flips `isMuted`, pauses/resumes the audio producer when present, and
notifies the server. -/
def toggleMute (s : Service) : Service × List Effect :=
  if s.callState.status ≠ .active then (s, [])
  else
    let newMuted := !s.callState.isMuted
    let s1 := { s with callState := { s.callState with isMuted := newMuted } }
    let s2 :=
      match s1.producer with
      | some _ => { s1 with producer := some ⟨newMuted⟩ }
      | none => s1
    let muteEffects :=
      match s.callState.callId with
      | some cid => [Effect.emitMute cid newMuted]
      | none => []
    (s2, Effect.broadcast s1.callState.status :: muteEffects)

/-- Handler for the server-pushed `call:incoming` event.  Busy guard from
the source: auto-reject when `active` or `connecting`, or when `ringing`
as the caller; otherwise overwrite the state with the new ringing call and
notify the incoming-call listeners. -/
def handleCallIncoming (s : Service) (d : IncomingCallData) : Service × List Effect :=
  if s.callState.status = .active || s.callState.status = .connecting then
    (s, [Effect.emitReject d.callId])
  else if s.callState.status = .ringing && s.callState.isCaller then
    (s, [Effect.emitReject d.callId])
  else
    let cs := { s.callState with
      status := .ringing
      callId := some d.callId
      remoteUserId := some d.callerId
      remoteUserName := some d.callerName
      conversationId := d.conversationId
      isCaller := false
      error := none
      isGroupCall := d.isGroup
      groupName := d.groupName
      isVideoCall := d.isVideoCall }
    ({ s with callState := cs },
      [Effect.broadcast .ringing, Effect.notifyIncoming d.callId])

/-- Handler for the server-pushed `call:rejected` event: unconditional
transition to `rejected`, full cleanup, reset scheduled after 2000 ms.
The payload `callId` is not compared with the current call. -/
def handleCallRejected (s : Service) (_callId : String) : Service × List Effect :=
  let s1 := { s with callState := { s.callState with status := .rejected } }
  (cleanupCall s1, [Effect.broadcast .rejected, Effect.scheduleReset 2000])

/-- Handler for the server-pushed `call:ended` event: unconditional
transition to `ended`, full cleanup, reset scheduled after 1500 ms. -/
def handleCallEnded (s : Service) (_callId : String) : Service × List Effect :=
  let s1 := { s with callState := { s.callState with status := .ended } }
  (cleanupCall s1, [Effect.broadcast .ended, Effect.scheduleReset 1500])

/-- Handler for the server-pushed `call:timeout` event: unconditional
transition to `missed`, full cleanup, reset scheduled after 2000 ms. -/
def handleCallTimeout (s : Service) (_callId : String) : Service × List Effect :=
  let s1 := { s with callState := { s.callState with status := .missed } }
  (cleanupCall s1, [Effect.broadcast .missed, Effect.scheduleReset 2000])

/-- The `endCall()`: with no call id, clean up and reset at once; otherwise
transition to `ended`, clean up, notify the server (`call:leaveGroup` for
group calls, `call:end` otherwise) and schedule the reset after 1000 ms. -/
def endCall (s : Service) : Service × List Effect :=
  match s.callState.callId with
  | none => (resetState (cleanupCall s), [Effect.broadcast .idle])
  | some cid =>
      let isGroup := s.callState.isGroupCall
      let s1 := cleanupCall { s with callState := { s.callState with status := .ended } }
      let notify := if isGroup then Effect.emitLeaveGroup cid else Effect.emitEnd cid
      (s1, [Effect.broadcast .ended, notify, Effect.scheduleReset 1000])

/-- The `rejectCall()`: with no call id, reset at once; otherwise tell the
server, transition to `rejected`, clean up, schedule the reset after
1000 ms. -/
def rejectCall (s : Service) : Service × List Effect :=
  match s.callState.callId with
  | none => (resetState s, [Effect.broadcast .idle])
  | some cid =>
      let s1 := cleanupCall { s with callState := { s.callState with status := .rejected } }
      (s1, [Effect.emitReject cid, Effect.broadcast .rejected, Effect.scheduleReset 1000])

/-- Key membership in the consumers map. -/
def keysContain (m : List (String × String)) (k : String) : Bool :=
  m.any (fun e => e.1 = k)

/-- JavaScript `Map.set`: replace in place when the key exists, append
otherwise. -/
def mapSet (m : List (String × String)) (k v : String) : List (String × String) :=
  if keysContain m k then m.map (fun e => if e.1 = k then (k, v) else e)
  else m ++ [(k, v)]

/-- How one consume attempt for a producer goes, as decided by the
environment (the signaling server and the receive transport):
`success` — the `consume` round-trip resolves without error (a
`resumeConsumer` error only logs a warning, so it still counts as
success); `consumeFails` — the `consume` round-trip rejects (timeout,
not connected) or returns an error payload, so the handler throws before
any consumer is created; `resumeFails` — the consumer is created but the
`resumeConsumer` round-trip rejects, so the handler throws before the
consumer is registered in the map.  Every caller (the `call:newProducer`
handler, the drain loop and the existing-producers loop) catches the
throw and merely logs it. -/
inductive ConsumeOutcome
  | success
  | consumeFails
  | resumeFails
deriving DecidableEq, Repr

/-- The `consumeAudio(callId, producerId)`: no-op when device or receive
transport is missing; otherwise a `consume` round-trip, local consumer
creation, `resumeConsumer`, and registration in the consumers map keyed by
the producer id (also stored in the singular `consumer` field).  On
`consumeFails` the throw happens after the `consume` request was sent but
before any state change; on `resumeFails` it happens after both requests
but still before the registration, so the map is unchanged in both failure
modes. -/
def consumeAudio (s : Service) (_callId producerId : String)
    (outcome : ConsumeOutcome) : Service × List Effect :=
  if !(s.device && s.recvTransport) then (s, [])
  else
    let cid := "consumer-" ++ producerId
    match outcome with
    | .consumeFails => (s, [Effect.consumeRequest producerId])
    | .resumeFails =>
        (s, [Effect.consumeRequest producerId, Effect.resumeConsumer cid])
    | .success =>
        ({ s with
            consumer := some cid
            consumers := mapSet s.consumers producerId cid },
          [Effect.consumeRequest producerId, Effect.resumeConsumer cid])

/-- The `consumeVideo(callId, producerId)`: like `consumeAudio` but also
exposes the remote video stream and marks the peer camera on; it does not
touch the singular `consumer` field.  Failure modes as in `consumeAudio`. -/
def consumeVideo (s : Service) (_callId producerId : String)
    (outcome : ConsumeOutcome) : Service × List Effect :=
  if !(s.device && s.recvTransport) then (s, [])
  else
    let cid := "consumer-" ++ producerId
    match outcome with
    | .consumeFails => (s, [Effect.consumeRequest producerId])
    | .resumeFails =>
        (s, [Effect.consumeRequest producerId, Effect.resumeConsumer cid])
    | .success =>
        ({ s with
            consumers := mapSet s.consumers producerId cid
            callState := { s.callState with
              remoteVideoStreamURL := some ("stream-" ++ producerId)
              isPeerCameraOn := true } },
          [Effect.consumeRequest producerId, Effect.resumeConsumer cid])

/-- Dispatch on the producer kind, as the drain / newProducer / existing
passes all do. -/
def consumeOne (s : Service) (callId producerId : String) (kind : Option String)
    (outcome : ConsumeOutcome) : Service × List Effect :=
  if kind = some "video" then consumeVideo s callId producerId outcome
  else consumeAudio s callId producerId outcome

/-- Handler for the server-pushed `call:newProducer` event: queue the
notification while the call is not `active` or the device / receive
transport is not ready, otherwise consume it at once (a consume failure is
caught and only logged). -/
def handleNewProducer (s : Service) (d : PendingProducer)
    (outcome : ConsumeOutcome) : Service × List Effect :=
  if s.callState.status ≠ .active then
    ({ s with pendingProducers := s.pendingProducers ++ [d] }, [])
  else if !(s.device && s.recvTransport) then
    ({ s with pendingProducers := s.pendingProducers ++ [d] }, [])
  else
    consumeOne s d.callId d.producerId d.kind outcome

/-- The loop body of `drainPendingProducers`: consume each queued
notification in order; a failed consume is caught, logged and skipped
(the entry was already removed from the queue). `env` gives the outcome
of the consume attempt for each producer id. -/
def drainLoop (env : String → ConsumeOutcome) (s : Service)
    (pending : List PendingProducer) : Service × List Effect :=
  match pending with
  | [] => (s, [])
  | d :: rest =>
      let r1 := consumeOne s d.callId d.producerId d.kind (env d.producerId)
      let r2 := drainLoop env r1.1 rest
      (r2.1, r1.2 ++ r2.2)

/-- The `drainPendingProducers()`: snapshot the queue, clear it, consume every
entry. -/
def drainPendingProducers (s : Service) (env : String → ConsumeOutcome) :
    Service × List Effect :=
  if s.pendingProducers = [] then (s, [])
  else drainLoop env { s with pendingProducers := [] } s.pendingProducers

/-- Existing-producer descriptor returned by `getExistingProducers`. -/
structure ExistingProducer where
  producerId : String
  producerUserId : Nat
  kind : String
deriving DecidableEq, Repr

/-- The loop body of `requestExistingProducers`: skip producers already in
the consumers map, consume the rest (failures caught and logged per
entry). -/
def existingLoop (env : String → ConsumeOutcome) (s : Service) (callId : String)
    (ps : List ExistingProducer) : Service × List Effect :=
  match ps with
  | [] => (s, [])
  | p :: rest =>
      if keysContain s.consumers p.producerId then existingLoop env s callId rest
      else
        let r1 := consumeOne s callId p.producerId (some p.kind) (env p.producerId)
        let r2 := existingLoop env r1.1 callId rest
        (r2.1, r1.2 ++ r2.2)

/-- The `requestExistingProducers(callId)` with the list the server reports. -/
def requestExistingProducers (s : Service) (callId : String)
    (serverProducers : List ExistingProducer) (env : String → ConsumeOutcome) :
    Service × List Effect :=
  existingLoop env s callId serverProducers

/-- The `removeConsumerForUser(userId)` from voiceCallService.ts: the body of
the function is empty, so it is the identity on the service state. -/
def removeConsumerForUser (s : Service) (_userId : Nat) : Service := s

/-- Handler for the server-pushed `call:participantLeft` event: ignore
unless this is the current group call; otherwise drop the participant from
the list and call `removeConsumerForUser`. -/
def handleParticipantLeft (s : Service) (callId : String) (userId : Nat) :
    Service × List Effect :=
  if !s.callState.isGroupCall || s.callState.callId ≠ some callId then (s, [])
  else
    let updated := s.callState.participants.filter (fun p => p.userId ≠ userId)
    let s1 := { s with callState := { s.callState with participants := updated } }
    (removeConsumerForUser s1 userId, [Effect.broadcast s1.callState.status])

/-- Outcome of one `setupMediasoup()` attempt, as the environment decides
it: whether the multi-step sequence succeeded, and the value of
`callState.status` observed in the catch block after a failure (concurrent
handlers may have changed it during the awaits). -/
structure AttemptOutcome where
  succeeds : Bool
  statusAtCatch : CallStatus
deriving DecidableEq, Repr

/-- Result of `setupMediasoupWithRetry`. -/
inductive SetupResult
  | ok
  | abandonedErr
  | exhaustedErr
deriving DecidableEq, Repr

/-- State effect of one successful `setupMediasoup()` pass: capabilities
and device load, send transport, receive transport, drain of the pending
producer queue, explicit existing-producer pass, local audio production
(and, for a video call, local video production). -/
def setupMediasoupSuccess (s : Service) (serverProducers : List ExistingProducer)
    (envDrain envExist : String → ConsumeOutcome) : Service × List Effect :=
  let callId := s.callState.callId.getD ""
  let s3 := { s with device := true, sendTransport := true, recvTransport := true }
  let r4 := drainPendingProducers s3 envDrain
  let r5 := requestExistingProducers r4.1 callId serverProducers envExist
  let s6 := { r5.1 with producer := some ⟨false⟩, localStream := true }
  let s7 :=
    if s6.callState.isVideoCall then
      { s6 with
        videoProducer := some ⟨false⟩
        localVideoStream := true
        callState := { s6.callState with isCameraOn := true } }
    else s6
  (s7, r4.2 ++ r5.2)

/-- The `for (attempt = 1; attempt <= maxRetries; attempt++)` loop of
`setupMediasoupWithRetry`, structurally recursive on the remaining attempt
budget.  A failed attempt cleans mediasoup resources, aborts when the call
status observed at the catch has left `active`, and otherwise sleeps
1000 ms before the next attempt when budget remains. -/
def retryLoop (outcomes : Nat → AttemptOutcome) (serverProducers : List ExistingProducer)
    (envDrain envExist : String → ConsumeOutcome) (s : Service) (attempt : Nat) :
    Nat → Service × SetupResult × List Effect
  | 0 => (s, .exhaustedErr, [])
  | r + 1 =>
      let o := outcomes attempt
      if o.succeeds then
        let su := setupMediasoupSuccess s serverProducers envDrain envExist
        (su.1, .ok, Effect.attemptStart attempt :: su.2)
      else
        let sClean := cleanupMediasoup
          { s with callState := { s.callState with status := o.statusAtCatch } }
        if o.statusAtCatch ≠ .active then
          (sClean, .abandonedErr, [Effect.attemptStart attempt, Effect.mediaCleanup])
        else if r = 0 then
          (sClean, .exhaustedErr, [Effect.attemptStart attempt, Effect.mediaCleanup])
        else
          let rest := retryLoop outcomes serverProducers envDrain envExist sClean
            (attempt + 1) r
          (rest.1, rest.2.1,
            Effect.attemptStart attempt :: Effect.mediaCleanup :: Effect.sleep 1000 :: rest.2.2)

/-- The `setupMediasoupWithRetry(maxRetries)` (the source default is 2). -/
def setupMediasoupWithRetry (s : Service) (serverProducers : List ExistingProducer)
    (envDrain envExist : String → ConsumeOutcome) (outcomes : Nat → AttemptOutcome)
    (maxRetries : Nat) : Service × SetupResult × List Effect :=
  retryLoop outcomes serverProducers envDrain envExist s 1 maxRetries

/-- Handler for the server-pushed `call:accepted` event: ignored when the
payload call id does not match the current call; otherwise transition to
`active`, start the duration timer and run the retried mediasoup setup; on
exhausted/abandoned setup, transition to `error` and issue `endCall`. -/
def handleCallAccepted (s : Service) (callId : String)
    (serverProducers : List ExistingProducer)
    (envDrain envExist : String → ConsumeOutcome)
    (outcomes : Nat → AttemptOutcome) : Service × List Effect :=
  if s.callState.callId ≠ some callId then (s, [])
  else
    let s1 := startDurationTimer
      { s with callState := { s.callState with status := .active } }
    let r := setupMediasoupWithRetry s1 serverProducers envDrain envExist outcomes 2
    match r.2.1 with
    | .ok => (r.1, Effect.broadcast .active :: r.2.2)
    | _ =>
        let sErr := { r.1 with callState := { r.1.callState with
          status := .error, error := some "Failed to setup audio connection" } }
        let rEnd := endCall sErr
        (rEnd.1,
          Effect.broadcast .active :: r.2.2 ++ [Effect.broadcast .error] ++ rEnd.2)

/-- Outcome of `emitAsync`. -/
inductive EmitOutcome
  | rejectedNotConnected
  | resolved (reply : String)
  | timedOut
deriving DecidableEq, Repr

/-- The `emitAsync(event, payload)`: reject at once (without sending) when the
socket is not connected; otherwise send and either resolve with the
correlated acknowledgment (when it arrives within the 10000 ms budget) or
reject on the 10 s timeout.  `ack` is the environment: the arrival time
and content of the server acknowledgment, when one ever arrives.  The
second component records whether the request was sent at all. -/
def emitAsync (connected : Bool) (ack : Option (Nat × String)) : EmitOutcome × Bool :=
  if !connected then (.rejectedNotConnected, false)
  else
    match ack with
    | some (t, r) => if t < 10000 then (.resolved r, true) else (.timedOut, true)
    | none => (.timedOut, true)

/-- How a public action settles its promise. -/
inductive ActionOutcome
  | resolved
  | rejected (msg : String)
deriving DecidableEq, Repr

/-- The `acceptCall()`: with no call id or no ringing call, log and return
(the promise resolves).  Otherwise `call:joinGroup` / `call:accept`,
transition to `active`, start the timer and run the retried setup; every
failure is caught inside, turned into an `error` transition plus
`endCall`, and the promise still resolves. -/
def acceptCall (s : Service) (acceptResp : Except String (List GroupParticipant))
    (serverProducers : List ExistingProducer)
    (envDrain envExist : String → ConsumeOutcome)
    (outcomes : Nat → AttemptOutcome) : Service × ActionOutcome × List Effect :=
  if s.callState.callId = none || s.callState.status ≠ .ringing then
    (s, .resolved, [])
  else
    match acceptResp with
    | .error _ =>
        let sErr := { s with callState := { s.callState with
          status := .error, error := some "Failed to connect audio" } }
        let rEnd := endCall sErr
        (rEnd.1, .resolved, Effect.broadcast .error :: rEnd.2)
    | .ok participants =>
        let cs :=
          if s.callState.isGroupCall then
            { s.callState with status := .active, participants := participants }
          else
            { s.callState with status := .active }
        let s1 := startDurationTimer { s with callState := cs }
        let r := setupMediasoupWithRetry s1 serverProducers envDrain envExist outcomes 2
        match r.2.1 with
        | .ok => (r.1, .resolved, Effect.broadcast .active :: r.2.2)
        | _ =>
            let sErr := { r.1 with callState := { r.1.callState with
              status := .error, error := some "Failed to connect audio" } }
            let rEnd := endCall sErr
            (rEnd.1, .resolved,
              Effect.broadcast .active :: r.2.2 ++ [Effect.broadcast .error] ++ rEnd.2)

/-- The `status` values the busy guard of `initiateCall` /
`initiateGroupCall` rejects: everything outside
{idle, ended, rejected, missed, error}. -/
def busyGuardFails (st : CallStatus) : Bool :=
  st ≠ .idle && st ≠ .ended && st ≠ .rejected && st ≠ .missed && st ≠ .error

/-- The shared catch block of `initiateCall` / `initiateGroupCall`: when
the failure left the state in `connecting`, mark it `error` and schedule a
2500 ms reset; either way the promise rejects. -/
def initiateCatch (s : Service) (msg : String) : Service × ActionOutcome × List Effect :=
  if s.callState.status = .connecting then
    ({ s with callState := { s.callState with status := .error, error := some msg } },
      .rejected msg, [Effect.broadcast .error, Effect.scheduleReset 2500])
  else (s, .rejected msg, [])

/-- The `initiateCall(calleeId, callerName, conversationId, isVideoCall)`:
connect, busy guard, clean and reset stale state, server force-cleanup
(non-fatal), transition to `connecting`, `call:initiate` round-trip, then
`ringing` with the server-issued call id.  `connectOk` and `initResp` are
the environment: whether `connect()` succeeds and what `call:initiate`
returns (a call id or an error). -/
def initiateCall (s : Service) (calleeId : Nat) (_callerName : String)
    (conversationId : Option String) (isVideoCall : Bool)
    (connectOk : Bool) (initResp : Except String String) :
    Service × ActionOutcome × List Effect :=
  if !connectOk then initiateCatch s "connect failed"
  else if busyGuardFails s.callState.status then initiateCatch s "Already in a call"
  else
    let s1 := resetStateSync (cleanupCall s)
    let s2 := { s1 with callState := { s1.callState with
      status := .connecting
      remoteUserId := some calleeId
      remoteUserName := none
      conversationId := conversationId
      isCaller := true
      error := none
      isMuted := false
      isPeerMuted := false
      duration := 0
      isVideoCall := isVideoCall } }
    match initResp with
    | .error e =>
        ({ s2 with callState := { s2.callState with status := .error, error := some e } },
          .rejected e,
          [Effect.broadcast .connecting, Effect.broadcast .error, Effect.scheduleReset 2500])
    | .ok callId =>
        ({ s2 with callState := { s2.callState with status := .ringing, callId := some callId } },
          .resolved, [Effect.broadcast .connecting, Effect.broadcast .ringing])

/-- The `initiateGroupCall(participantIds, callerName, conversationId,
groupName, isVideoCall)`: same guard and connecting phase as
`initiateCall`, then `call:initiateGroup`; on success the state moves
directly to `active` with the invited participants, the timer starts and
the retried setup runs (its failure is caught inside: `error` transition
plus `endCall`, promise still resolved). -/
def initiateGroupCall (s : Service) (_participantIds : List Nat) (_callerName : String)
    (conversationId : String) (groupName : String) (isVideoCall : Bool)
    (connectOk : Bool) (initResp : Except String (String × List GroupParticipant))
    (serverProducers : List ExistingProducer)
    (envDrain envExist : String → ConsumeOutcome)
    (outcomes : Nat → AttemptOutcome) : Service × ActionOutcome × List Effect :=
  if !connectOk then initiateCatch s "connect failed"
  else if busyGuardFails s.callState.status then initiateCatch s "Already in a call"
  else
    let s1 := resetStateSync (cleanupCall s)
    let s2 := { s1 with callState := { s1.callState with
      status := .connecting
      remoteUserId := none
      remoteUserName := none
      conversationId := some conversationId
      isCaller := true
      error := none
      isMuted := false
      isPeerMuted := false
      duration := 0
      isGroupCall := true
      isVideoCall := isVideoCall
      groupName := some groupName
      participants := [] } }
    match initResp with
    | .error e =>
        ({ s2 with callState := { s2.callState with status := .error, error := some e } },
          .rejected e,
          [Effect.broadcast .connecting, Effect.broadcast .error, Effect.scheduleReset 2500])
    | .ok (callId, participants) =>
        let s3 := startDurationTimer { s2 with callState := { s2.callState with
          status := .active, callId := some callId, participants := participants } }
        let r := setupMediasoupWithRetry s3 serverProducers envDrain envExist outcomes 2
        match r.2.1 with
        | .ok =>
            (r.1, .resolved,
              Effect.broadcast .connecting :: Effect.broadcast .active :: r.2.2)
        | _ =>
            let sErr := { r.1 with callState := { r.1.callState with
              status := .error, error := some "Failed to setup audio connection" } }
            let rEnd := endCall sErr
            (rEnd.1, .resolved,
              Effect.broadcast .connecting :: Effect.broadcast .active ::
                r.2.2 ++ [Effect.broadcast .error] ++ rEnd.2)

/-- Audio output routes of the audio routing helper. -/
inductive AudioOutputRoute
  | earpiece
  | speaker
  | bluetooth
deriving DecidableEq, Repr

/-- The route-relevant state of `AudioService`. -/
structure AudioServiceState where
  currentRoute : AudioOutputRoute
  bluetoothAvailable : Bool
  inCallManagerStarted : Bool
deriving DecidableEq, Repr

/-- What one native round (`InCallManager.chooseAudioRoute`, or the
expo-av call in the not-started branch) does, as the environment decides:
`thrown` — the call rejects (caught by the try/catch, no state change);
`ok deviceList selected` — it resolves, with the optional parsed
`availableAudioDeviceList` and the optional `selectedAudioDevice`
strings of the returned status. -/
inductive NativeRouteResult
  | thrown
  | ok (deviceList : Option (List String)) (selected : Option String)
deriving DecidableEq, Repr

/-- Mapping of a reported `selectedAudioDevice` back to a route, from the
source: BLUETOOTH and SPEAKER_PHONE are recognized, everything else is
treated as the earpiece. -/
def parseSelected (sel : String) : AudioOutputRoute :=
  if sel = "BLUETOOTH" then .bluetooth
  else if sel = "SPEAKER_PHONE" then .speaker
  else .earpiece

/-- The `refreshAvailableDevices()`: with InCallManager not started the
flag is cleared; otherwise the native query updates `bluetoothAvailable`
from the reported device list (left unchanged when no list is reported),
and the catch clears the flag on a rejection. -/
def refreshAvailableDevices (a : AudioServiceState) (env : NativeRouteResult) :
    AudioServiceState :=
  if !a.inCallManagerStarted then { a with bluetoothAvailable := false }
  else
    match env with
    | .thrown => { a with bluetoothAvailable := false }
    | .ok deviceList _ =>
        match deviceList with
        | some ds => { a with bluetoothAvailable := ds.contains "BLUETOOTH" }
        | none => a

/-- The `setAudioRoute(route)`: in the InCallManager branch the native
result may update `bluetoothAvailable`, and when it reports a
`selectedAudioDevice` that selection overrides the requested route as the
new `currentRoute`; without a selection the requested route is applied.
In the not-started branch the expo-av call applies the requested route.
A rejection anywhere is caught and leaves `currentRoute` unchanged. -/
def setAudioRoute (a : AudioServiceState) (route : AudioOutputRoute)
    (env : NativeRouteResult) : AudioServiceState :=
  if a.inCallManagerStarted then
    match env with
    | .thrown => a
    | .ok deviceList selected =>
        let a1 :=
          match deviceList with
          | some ds => { a with bluetoothAvailable := ds.contains "BLUETOOTH" }
          | none => a
        match selected with
        | some sel => { a1 with currentRoute := parseSelected sel }
        | none => { a1 with currentRoute := route }
  else
    match env with
    | .thrown => a
    | .ok _ _ => { a with currentRoute := route }

/-- The bluetooth-available branch of `cycleAudioOutput`. -/
def nextRouteWhenBt : AudioOutputRoute → AudioOutputRoute
  | .earpiece => .speaker
  | .speaker => .bluetooth
  | .bluetooth => .earpiece

/-- The no-bluetooth branch of `cycleAudioOutput`. -/
def nextRouteNoBt : AudioOutputRoute → AudioOutputRoute
  | .earpiece => .speaker
  | .speaker => .earpiece
  | .bluetooth => .earpiece

/-- The `cycleAudioOutput()`: refresh device availability, pick the next
route in the fixed order (skipping bluetooth when unavailable), request it
through `setAudioRoute`, and return the requested route.  `envRefresh` and
`envSet` are the native results of the refresh and the route-set round. -/
def cycleAudioOutput (a : AudioServiceState) (envRefresh envSet : NativeRouteResult) :
    AudioServiceState × AudioOutputRoute :=
  let a1 := refreshAvailableDevices a envRefresh
  let nxt :=
    if a1.bluetoothAvailable then nextRouteWhenBt a1.currentRoute
    else nextRouteNoBt a1.currentRoute
  (setAudioRoute a1 nxt envSet, nxt)

/-- A service with the default idle state and no resources, as freshly
constructed. -/
def emptyService : Service where
  callState := getDefaultState
  device := false
  sendTransport := false
  recvTransport := false
  producer := none
  videoProducer := none
  consumer := none
  consumers := []
  localStream := false
  localVideoStream := false
  pendingProducers := []
  durationTimerRunning := false

/-- A service built from a call state with no media resources. -/
def mkService (cs : CallState) : Service :=
  { emptyService with callState := cs }

lemma mediaCleared_cleanupCall (s : Service) : mediaCleared (cleanupCall s) = true := rfl

lemma cleanupCall_callState (s : Service) : (cleanupCall s).callState = s.callState := rfl

lemma cleanupMediasoup_callState (s : Service) :
    (cleanupMediasoup s).callState = s.callState := rfl

lemma mediaCleared_resetState (s : Service) :
    mediaCleared (resetState s) = mediaCleared s := rfl

lemma mediaCleared_callState_update (s : Service) (cs : CallState) :
    mediaCleared { s with callState := cs } = mediaCleared s := rfl

/-- C4: every transition into a terminal status performs full resource
cleanup (timer stopped, producers, consumers, transports and captured
tracks closed, pending queue emptied) and schedules the reset to the
default idle record after a fixed delay between 1000 and 2500 ms, with no
media resources attached when the reset is scheduled; the reset itself
touches only the call state, so it never runs while media resources are
attached.  Covered entry points: the `call:rejected` / `call:ended` /
`call:timeout` handlers, `endCall`, `rejectCall`, the `error` transition
of a failed `initiateCall` / `initiateGroupCall` (whose in-path stale-state
cleanup ran before `connecting`), the `error` transition of a busy
`initiateCall` caught while the previous call is `connecting` (a state in
which no media is attached, here a hypothesis), and the `error` transition
after exhausted setup retries in the `call:accepted` handler (which goes
through `endCall`). -/
theorem c4_terminal_cleanup_then_reset (s : Service) (c cid : String)
    (calleeId : Nat) (nm gname gconv e : String) (conv : Option String)
    (iv : Bool) (pids : List Nat) (sp : List ExistingProducer)
    (envD envE : String → ConsumeOutcome) (outcomes : Nat → AttemptOutcome)
    (initResp : Except String String) :
    (mediaCleared (handleCallRejected s c).1 = true ∧
      (handleCallRejected s c).1.callState.status = .rejected ∧
      (∃ d, Effect.scheduleReset d ∈ (handleCallRejected s c).2 ∧ 1000 ≤ d ∧ d ≤ 2500) ∧
      mediaCleared (resetState (handleCallRejected s c).1) = true ∧
      (resetState (handleCallRejected s c).1).callState = getDefaultState) ∧
    (mediaCleared (handleCallEnded s c).1 = true ∧
      (handleCallEnded s c).1.callState.status = .ended ∧
      (∃ d, Effect.scheduleReset d ∈ (handleCallEnded s c).2 ∧ 1000 ≤ d ∧ d ≤ 2500) ∧
      mediaCleared (resetState (handleCallEnded s c).1) = true) ∧
    (mediaCleared (handleCallTimeout s c).1 = true ∧
      (handleCallTimeout s c).1.callState.status = .missed ∧
      (∃ d, Effect.scheduleReset d ∈ (handleCallTimeout s c).2 ∧ 1000 ≤ d ∧ d ≤ 2500) ∧
      mediaCleared (resetState (handleCallTimeout s c).1) = true) ∧
    (s.callState.callId = some cid →
      mediaCleared (endCall s).1 = true ∧
      (endCall s).1.callState.status = .ended ∧
      (∃ d, Effect.scheduleReset d ∈ (endCall s).2 ∧ 1000 ≤ d ∧ d ≤ 2500) ∧
      mediaCleared (resetState (endCall s).1) = true) ∧
    (s.callState.callId = some cid →
      mediaCleared (rejectCall s).1 = true ∧
      (rejectCall s).1.callState.status = .rejected ∧
      (∃ d, Effect.scheduleReset d ∈ (rejectCall s).2 ∧ 1000 ≤ d ∧ d ≤ 2500) ∧
      mediaCleared (resetState (rejectCall s).1) = true) ∧
    (busyGuardFails s.callState.status = false →
      mediaCleared (initiateCall s calleeId nm conv iv true (.error e)).1 = true ∧
      (initiateCall s calleeId nm conv iv true (.error e)).1.callState.status = .error ∧
      (∃ d, Effect.scheduleReset d ∈
          (initiateCall s calleeId nm conv iv true (.error e)).2.2 ∧
        1000 ≤ d ∧ d ≤ 2500) ∧
      mediaCleared (resetState (initiateCall s calleeId nm conv iv true (.error e)).1) =
        true) ∧
    (busyGuardFails s.callState.status = false →
      mediaCleared (initiateGroupCall s pids nm gconv gname iv true (.error e) sp
          envD envE outcomes).1 = true ∧
      (initiateGroupCall s pids nm gconv gname iv true (.error e) sp
          envD envE outcomes).1.callState.status = .error ∧
      (∃ d, Effect.scheduleReset d ∈
          (initiateGroupCall s pids nm gconv gname iv true (.error e) sp
            envD envE outcomes).2.2 ∧
        1000 ≤ d ∧ d ≤ 2500)) ∧
    (s.callState.status = .connecting → mediaCleared s = true →
      mediaCleared (initiateCall s calleeId nm conv iv true initResp).1 = true ∧
      (initiateCall s calleeId nm conv iv true initResp).1.callState.status = .error ∧
      (∃ d, Effect.scheduleReset d ∈
          (initiateCall s calleeId nm conv iv true initResp).2.2 ∧
        1000 ≤ d ∧ d ≤ 2500)) ∧
    (s.callState.callId = some cid → outcomes 1 = ⟨false, .active⟩ →
      outcomes 2 = ⟨false, .active⟩ →
      Effect.broadcast .error ∈ (handleCallAccepted s cid sp envD envE outcomes).2 ∧
      mediaCleared (handleCallAccepted s cid sp envD envE outcomes).1 = true ∧
      (∃ d, Effect.scheduleReset d ∈ (handleCallAccepted s cid sp envD envE outcomes).2 ∧
        1000 ≤ d ∧ d ≤ 2500) ∧
      mediaCleared (resetState (handleCallAccepted s cid sp envD envE outcomes).1) =
        true) := by
  refine ⟨⟨rfl, rfl, ⟨2000, by simp [handleCallRejected], by norm_num, by norm_num⟩, rfl, rfl⟩,
    ⟨rfl, rfl, ⟨1500, by simp [handleCallEnded], by norm_num, by norm_num⟩, rfl⟩,
    ⟨rfl, rfl, ⟨2000, by simp [handleCallTimeout], by norm_num, by norm_num⟩, rfl⟩,
    ?_, ?_, ?_, ?_, ?_, ?_⟩
  · intro h
    refine ⟨?_, ?_, ⟨1000, ?_, le_refl _, by norm_num⟩, ?_⟩ <;>
      simp [endCall, h, mediaCleared_cleanupCall, mediaCleared_resetState,
        cleanupCall_callState]
  · intro h
    refine ⟨?_, ?_, ⟨1000, ?_, le_refl _, by norm_num⟩, ?_⟩ <;>
      simp [rejectCall, h, mediaCleared_cleanupCall, mediaCleared_resetState,
        cleanupCall_callState]
  · intro hb
    refine ⟨?_, ?_, ⟨2500, ?_, by norm_num, by norm_num⟩, ?_⟩ <;>
      simp [initiateCall, hb, mediaCleared, resetState, resetStateSync,
        cleanupCall, cleanupMediasoup, stopDurationTimer]
  · intro hb
    refine ⟨?_, ?_, ⟨2500, ?_, by norm_num, by norm_num⟩⟩ <;>
      simp [initiateGroupCall, hb, mediaCleared, resetStateSync,
        cleanupCall, cleanupMediasoup, stopDurationTimer]
  · intro hc hm
    have hb : busyGuardFails s.callState.status = true := by
      rw [hc]
      rfl
    refine ⟨?_, ?_, ⟨2500, ?_, by norm_num, by norm_num⟩⟩ <;>
      simp [initiateCall, hb, busyGuardFails, initiateCatch, hc,
        mediaCleared_callState_update, hm]
  · intro hcid h1 h2
    have h1s : (outcomes 1).succeeds = false := by rw [h1]
    have h1c : (outcomes 1).statusAtCatch = CallStatus.active := by rw [h1]
    have h2s : (outcomes 2).succeeds = false := by rw [h2]
    have h2c : (outcomes 2).statusAtCatch = CallStatus.active := by rw [h2]
    refine ⟨?_, ?_, ⟨1000, ?_, le_refl _, by norm_num⟩, ?_⟩ <;>
      simp [handleCallAccepted, hcid, setupMediasoupWithRetry, retryLoop,
        h1s, h1c, h2s, h2c, endCall, startDurationTimer, cleanupMediasoup_callState,
        mediaCleared_cleanupCall, mediaCleared_resetState, cleanupCall_callState]

/-- Closed witness for `c4_terminal_cleanup_then_reset`: the hypotheses
hold at a concrete active call with a call id. -/
theorem c4_witness :
    mediaCleared (endCall (mkService
      { getDefaultState with status := .active, callId := some "call-1" })).1 = true := by
  have h := c4_terminal_cleanup_then_reset
    (mkService { getDefaultState with status := .active, callId := some "call-1" })
    "x" "call-1" 5 "n" "g" "cv" "boom" none false [] [] (fun _ => .success)
    (fun _ => .success) (fun _ => ⟨true, .active⟩) (Except.ok "cid")
  exact (h.2.2.2.1 rfl).1

/-- C6: while the call is `active`, `toggleMute` flips `isMuted`, a second
`toggleMute` restores it, and after every single toggle the audio producer
pause flag (when a producer exists) equals the `isMuted` flag. -/
theorem c6_toggleMute_involutive_and_producer_paused (s : Service)
    (hActive : s.callState.status = .active) :
    (toggleMute s).1.callState.isMuted = !s.callState.isMuted ∧
    (toggleMute (toggleMute s).1).1.callState.isMuted = s.callState.isMuted ∧
    (∀ p, s.producer = some p →
      (toggleMute s).1.producer = some ⟨(toggleMute s).1.callState.isMuted⟩ ∧
      (toggleMute (toggleMute s).1).1.producer =
        some ⟨(toggleMute (toggleMute s).1).1.callState.isMuted⟩) := by
  refine ⟨?_, ?_, ?_⟩
  · simp [toggleMute, hActive]
    cases hp : s.producer <;> simp [hp]
  · simp [toggleMute, hActive]
    cases hp : s.producer <;> simp [hp]
  · intro p hp
    constructor
    · simp [toggleMute, hActive, hp]
    · simp [toggleMute, hActive, hp]

/-- Closed witness for `c6_toggleMute_involutive_and_producer_paused` at a
concrete active call with an unpaused producer. -/
theorem c6_witness :
    (toggleMute { mkService { getDefaultState with status := .active } with
      producer := some ⟨false⟩ }).1.callState.isMuted = !false := by
  have h := c6_toggleMute_involutive_and_producer_paused
    { mkService { getDefaultState with status := .active } with producer := some ⟨false⟩ }
    rfl
  exact h.1

/-- C8: `emitAsync` rejects immediately without sending when the socket is
not connected; when connected it either resolves with the correlated
server reply (an acknowledgment arriving within the 10000 ms budget) or
rejects on the 10 s timeout. -/
theorem c8_emitAsync_resolution (connected : Bool) (ack : Option (Nat × String)) :
    (connected = false → emitAsync connected ack = (.rejectedNotConnected, false)) ∧
    (connected = true →
      ((∃ r, (emitAsync connected ack).1 = .resolved r) ∨
        (emitAsync connected ack).1 = .timedOut)) ∧
    (connected = true → ∀ t r, ack = some (t, r) → t < 10000 →
      emitAsync connected ack = (.resolved r, true)) ∧
    (connected = true → ∀ t r, ack = some (t, r) → 10000 ≤ t →
      emitAsync connected ack = (.timedOut, true)) ∧
    (connected = true → ack = none → emitAsync connected ack = (.timedOut, true)) := by
  refine ⟨fun h => by simp [emitAsync, h], fun h => ?_, fun h t r ha ht => ?_,
    fun h t r ha ht => ?_, fun h ha => by simp [emitAsync, h, ha]⟩
  · cases ha : ack with
    | none => right; simp [emitAsync, h, ha]
    | some tr =>
        by_cases ht : tr.1 < 10000
        · left; exact ⟨tr.2, by simp [emitAsync, h, ha, ht]⟩
        · right; simp [emitAsync, h, ha, ht]
  · simp [emitAsync, h, ha, ht]
  · simp [emitAsync, h, ha, Nat.not_lt.mpr ht]

/-- Closed witness for `c8_emitAsync_resolution`: a connected socket with
an acknowledgment at 5 ms resolves with that reply. -/
theorem c8_witness : emitAsync true (some (5, "ok")) = (.resolved "ok", true) := by
  exact (c8_emitAsync_resolution true (some (5, "ok"))).2.2.1 rfl 5 "ok" rfl (by norm_num)

lemma refreshAvailableDevices_route (a : AudioServiceState) (env : NativeRouteResult) :
    (refreshAvailableDevices a env).currentRoute = a.currentRoute := by
  unfold refreshAvailableDevices
  split
  · rfl
  · cases env with
    | thrown => rfl
    | ok dl sel => cases dl <;> rfl

lemma refreshAvailableDevices_started (a : AudioServiceState) (env : NativeRouteResult) :
    (refreshAvailableDevices a env).inCallManagerStarted = a.inCallManagerStarted := by
  unfold refreshAvailableDevices
  split
  · rfl
  · cases env with
    | thrown => rfl
    | ok dl sel => cases dl <;> rfl

/-- C9 counterexample: `cycleAudioOutput` does not always return the new
ACTIVE route.  From the earpiece with InCallManager started, a refresh
reporting a bluetooth device makes the cycle request the speaker, but when
the native layer answers with `selectedAudioDevice = BLUETOOTH`, the
selection overrides the request: `currentRoute` becomes bluetooth while
the function returns speaker. -/
theorem c9_counterexample :
    (cycleAudioOutput ⟨.earpiece, false, true⟩
        (.ok (some ["BLUETOOTH"]) none) (.ok none (some "BLUETOOTH"))).2 = .speaker ∧
    (cycleAudioOutput ⟨.earpiece, false, true⟩
        (.ok (some ["BLUETOOTH"]) none)
        (.ok none (some "BLUETOOTH"))).1.currentRoute = .bluetooth := by
  exact ⟨rfl, rfl⟩

/-- C9 (amended): `cycleAudioOutput` picks the next route in the fixed
order earpiece → speaker → bluetooth → earpiece when a bluetooth device is
available and earpiece → speaker → earpiece when none is, using the
availability refreshed on this very cycle, and returns that requested
route.  The requested route becomes the active `currentRoute` exactly when
the native route-set round resolves without reporting a different
`selectedAudioDevice`; a reported selection overrides the request, and a
rejection leaves `currentRoute` unchanged.  When the refresh reports a
device list, the decision is independent of the stale availability flag. -/
theorem c9_cycleAudioOutput (a : AudioServiceState) (envR envSet : NativeRouteResult) :
    ((refreshAvailableDevices a envR).bluetoothAvailable = true →
      (a.currentRoute = .earpiece → (cycleAudioOutput a envR envSet).2 = .speaker) ∧
      (a.currentRoute = .speaker → (cycleAudioOutput a envR envSet).2 = .bluetooth) ∧
      (a.currentRoute = .bluetooth → (cycleAudioOutput a envR envSet).2 = .earpiece)) ∧
    ((refreshAvailableDevices a envR).bluetoothAvailable = false →
      (a.currentRoute = .earpiece → (cycleAudioOutput a envR envSet).2 = .speaker) ∧
      (a.currentRoute = .speaker → (cycleAudioOutput a envR envSet).2 = .earpiece) ∧
      (a.currentRoute = .bluetooth → (cycleAudioOutput a envR envSet).2 = .earpiece)) ∧
    (∀ dl, envSet = .ok dl none →
      (cycleAudioOutput a envR envSet).1.currentRoute =
        (cycleAudioOutput a envR envSet).2) ∧
    (∀ dl sel, envSet = .ok dl (some sel) → a.inCallManagerStarted = true →
      (cycleAudioOutput a envR envSet).1.currentRoute = parseSelected sel) ∧
    (envSet = .thrown →
      (cycleAudioOutput a envR envSet).1.currentRoute = a.currentRoute) ∧
    (∀ ds sel stale, a.inCallManagerStarted = true →
      (cycleAudioOutput { a with bluetoothAvailable := stale }
          (.ok (some ds) sel) envSet).2 =
        (cycleAudioOutput a (.ok (some ds) sel) envSet).2) := by
  refine ⟨fun hb => ⟨fun h => ?_, fun h => ?_, fun h => ?_⟩,
    fun hb => ⟨fun h => ?_, fun h => ?_, fun h => ?_⟩,
    fun dl hset => ?_, fun dl sel hset hstart => ?_, fun hset => ?_,
    fun ds sel stale hstart => ?_⟩
  · simp [cycleAudioOutput, hb, refreshAvailableDevices_route, h, nextRouteWhenBt]
  · simp [cycleAudioOutput, hb, refreshAvailableDevices_route, h, nextRouteWhenBt]
  · simp [cycleAudioOutput, hb, refreshAvailableDevices_route, h, nextRouteWhenBt]
  · simp [cycleAudioOutput, hb, refreshAvailableDevices_route, h, nextRouteNoBt]
  · simp [cycleAudioOutput, hb, refreshAvailableDevices_route, h, nextRouteNoBt]
  · simp [cycleAudioOutput, hb, refreshAvailableDevices_route, h, nextRouteNoBt]
  · subst hset
    by_cases hs : (refreshAvailableDevices a envR).inCallManagerStarted = true <;>
      cases dl <;> simp [cycleAudioOutput, setAudioRoute, hs]
  · subst hset
    have hs : (refreshAvailableDevices a envR).inCallManagerStarted = true := by
      rw [refreshAvailableDevices_started]; exact hstart
    cases dl <;> simp [cycleAudioOutput, setAudioRoute, hs]
  · subst hset
    by_cases hs : (refreshAvailableDevices a envR).inCallManagerStarted = true <;>
      simp [cycleAudioOutput, setAudioRoute, hs, refreshAvailableDevices_route]
  · simp [cycleAudioOutput, refreshAvailableDevices, hstart]

/-- Closed witness for `c9_cycleAudioOutput`: from the speaker with a
refresh reporting bluetooth and a native layer that honors the request,
cycling requests bluetooth and bluetooth becomes the current route. -/
theorem c9_witness :
    (cycleAudioOutput ⟨.speaker, false, true⟩
        (.ok (some ["BLUETOOTH"]) none) (.ok none none)).1.currentRoute =
      (cycleAudioOutput ⟨.speaker, false, true⟩
        (.ok (some ["BLUETOOTH"]) none) (.ok none none)).2 := by
  exact (c9_cycleAudioOutput ⟨.speaker, false, true⟩
    (.ok (some ["BLUETOOTH"]) none) (.ok none none)).2.2.1 none rfl

/-- C10: the `call:rejected` / `call:ended` / `call:timeout` handlers
transition to their terminal status and clean up regardless of the payload
call id, while `call:accepted` is ignored when the payload call id does
not match the current call. -/
theorem c10_terminal_handlers_ignore_callId (s : Service) (c : String)
    (sp : List ExistingProducer) (envD envE : String → ConsumeOutcome)
    (outcomes : Nat → AttemptOutcome) :
    ((handleCallRejected s c).1.callState.status = .rejected ∧
      mediaCleared (handleCallRejected s c).1 = true) ∧
    ((handleCallEnded s c).1.callState.status = .ended ∧
      mediaCleared (handleCallEnded s c).1 = true) ∧
    ((handleCallTimeout s c).1.callState.status = .missed ∧
      mediaCleared (handleCallTimeout s c).1 = true) ∧
    (s.callState.callId ≠ some c →
      handleCallAccepted s c sp envD envE outcomes = (s, [])) := by
  refine ⟨⟨rfl, rfl⟩, ⟨rfl, rfl⟩, ⟨rfl, rfl⟩, fun h => by simp [handleCallAccepted, h]⟩

/-- Closed witness for `c10_terminal_handlers_ignore_callId`: a
`call:accepted` for an unknown id is ignored, while a `call:ended` for the
same unknown id still ends the current call. -/
theorem c10_witness :
    handleCallAccepted (mkService { getDefaultState with callId := some "A" }) "B" []
        (fun _ => .success) (fun _ => .success) (fun _ => ⟨true, .active⟩) =
      (mkService { getDefaultState with callId := some "A" }, []) ∧
    (handleCallEnded (mkService { getDefaultState with callId := some "A" })
        "B").1.callState.status = .ended := by
  have h := c10_terminal_handlers_ignore_callId
    (mkService { getDefaultState with callId := some "A" }) "B" []
    (fun _ => .success) (fun _ => .success) (fun _ => ⟨true, .active⟩)
  exact ⟨h.2.2.2 (by decide), h.2.1.1⟩

/-- A callee-side ringing call on id "A". -/
def ringingCalleeService : Service :=
  mkService { getDefaultState with
    status := .ringing, isCaller := false, callId := some "A", remoteUserId := some 1 }

/-- A second incoming call while ringing as callee. -/
def secondIncoming : IncomingCallData :=
  ⟨"B", 9, "Bob", none, false, false, none⟩

/-- C1 counterexample: when the current status is `ringing` as the callee,
a second server-pushed `call:incoming` is NOT auto-rejected; it overwrites
the existing ringing call (the call id changes from "A" to "B") and no
`call:reject` is emitted for the new id. -/
theorem c1_counterexample :
    (handleCallIncoming ringingCalleeService secondIncoming).1.callState.callId = some "B" ∧
    ringingCalleeService.callState.callId = some "A" ∧
    Effect.emitReject "B" ∉ (handleCallIncoming ringingCalleeService secondIncoming).2 := by
  refine ⟨rfl, rfl, ?_⟩
  decide

/-- C1 (amended): while the client is busy in the sense of the source
guard — status `active`, `connecting`, or `ringing` with `isCaller` set —
a server-pushed `call:incoming` yields exactly one `call:reject` for the
new call id and leaves the whole service state (in particular every field
of the existing `CallState`) unchanged. -/
theorem c1_busy_incoming_autoreject (s : Service) (d : IncomingCallData)
    (hBusy : s.callState.status = .active ∨ s.callState.status = .connecting ∨
      (s.callState.status = .ringing ∧ s.callState.isCaller = true)) :
    handleCallIncoming s d = (s, [Effect.emitReject d.callId]) := by
  rcases hBusy with h | h | ⟨h, hc⟩ <;> simp [handleCallIncoming, h]
  exact hc

/-- Closed witness for `c1_busy_incoming_autoreject`: an active call
auto-rejects a new incoming call. -/
theorem c1_witness :
    handleCallIncoming (mkService { getDefaultState with status := .active })
        secondIncoming =
      (mkService { getDefaultState with status := .active }, [Effect.emitReject "B"]) := by
  exact c1_busy_incoming_autoreject
    (mkService { getDefaultState with status := .active }) secondIncoming (Or.inl rfl)

/-- A group call on id "g1" with two remote participants, of which user 7
has a consumed producer "p7" tracked in the consumers map. -/
def c5ServiceInput : Service :=
  { mkService { getDefaultState with
      status := .active, callId := some "g1", isGroupCall := true,
      participants := [⟨7, "Bob", false, .active⟩, ⟨8, "Eve", false, .active⟩] } with
    device := true
    recvTransport := true
    consumers := [("p7", "c7")]
    consumer := some "c7" }

/-- C5 evidence: on `call:participantLeft` for user 7, the participant is
removed from the list but the consumers map is untouched — the body of
`removeConsumerForUser` in the source is empty, so no consumer is located,
closed or removed, contradicting both the function documentation and the
spec. -/
theorem c5_participantLeft_keeps_consumer :
    (handleParticipantLeft c5ServiceInput "g1" 7).1.callState.participants =
      [⟨8, "Eve", false, .active⟩] ∧
    (handleParticipantLeft c5ServiceInput "g1" 7).1.consumers = [("p7", "c7")] := by
  exact ⟨rfl, rfl⟩

/-- C7 counterexample: `acceptCall` invoked with no ringing call (idle
default state) returns a RESOLVED promise — it does not reject — and the
state is unchanged with no effects. -/
theorem c7_counterexample :
    acceptCall emptyService (Except.ok []) [] (fun _ => .success) (fun _ => .success)
        (fun _ => ⟨true, .active⟩) =
      (emptyService, .resolved, []) := rfl

/-- C7 (amended): `acceptCall` when no call is ringing resolves
immediately without mutating state or emitting anything (the source logs
and returns, it does not reject); `initiateCall` / `initiateGroupCall`
while a call is ringing or active reject immediately with the state
unchanged; while a call is connecting they reject and additionally mark
the in-flight call state as `error` (with a 2500 ms reset scheduled). -/
theorem c7_invalid_state_actions (s : Service)
    (resp : Except String (List GroupParticipant)) (sp : List ExistingProducer)
    (envD envE : String → ConsumeOutcome)
    (outcomes : Nat → AttemptOutcome) (calleeId : Nat) (nm conv gname : String)
    (pids : List Nat) (iv : Bool) (initResp : Except String String)
    (ginitResp : Except String (String × List GroupParticipant)) :
    (s.callState.callId = none ∨ s.callState.status ≠ .ringing →
      acceptCall s resp sp envD envE outcomes = (s, .resolved, [])) ∧
    (s.callState.status = .ringing ∨ s.callState.status = .active →
      initiateCall s calleeId nm (some conv) iv true initResp =
        (s, .rejected "Already in a call", [])) ∧
    (s.callState.status = .ringing ∨ s.callState.status = .active →
      initiateGroupCall s pids nm conv gname iv true ginitResp sp envD envE outcomes =
        (s, .rejected "Already in a call", [])) ∧
    (s.callState.status = .connecting →
      (initiateCall s calleeId nm (some conv) iv true initResp).2.1 =
        .rejected "Already in a call" ∧
      (initiateCall s calleeId nm (some conv) iv true initResp).1.callState.status =
        .error) := by
  refine ⟨fun h => ?_, fun h => ?_, fun h => ?_, fun h => ?_⟩
  · rcases h with h | h <;> simp [acceptCall, h]
  · rcases h with h | h <;>
      simp [initiateCall, busyGuardFails, initiateCatch, h]
  · rcases h with h | h <;>
      simp [initiateGroupCall, busyGuardFails, initiateCatch, h]
  · constructor <;> simp [initiateCall, busyGuardFails, initiateCatch, h]

/-- Closed witness for `c7_invalid_state_actions`: a second `initiateCall`
while a call is ringing rejects with the state unchanged. -/
theorem c7_witness :
    initiateCall (mkService { getDefaultState with status := .ringing }) 5 "n"
        (some "c") false true (Except.ok "cid") =
      (mkService { getDefaultState with status := .ringing },
        .rejected "Already in a call", []) := by
  exact (c7_invalid_state_actions (mkService { getDefaultState with status := .ringing })
    (Except.ok []) [] (fun _ => .success) (fun _ => .success) (fun _ => ⟨true, .active⟩)
    5 "n" "c" "g" [] false (Except.ok "cid")
    (Except.ok ("cid", []))).2.1 (Or.inl rfl)

/-- Number of `consume` requests for a given producer id in an effect
trace. -/
def countConsume (es : List Effect) (pid : String) : Nat :=
  es.countP (fun e => e = Effect.consumeRequest pid)

lemma countConsume_append (a b : List Effect) (q : String) :
    countConsume (a ++ b) q = countConsume a q + countConsume b q :=
  List.countP_append _ _ _

lemma keysContain_iff (m : List (String × String)) (k : String) :
    keysContain m k = true ↔ ∃ e ∈ m, e.1 = k := by
  unfold keysContain
  rw [List.any_eq_true]
  simp

lemma keysContain_mapSet_self (m : List (String × String)) (k v : String) :
    keysContain (mapSet m k v) k = true := by
  unfold mapSet
  by_cases h : keysContain m k = true
  · rw [if_pos h]
    rw [keysContain_iff] at h ⊢
    obtain ⟨e, he, hk⟩ := h
    exact ⟨(k, v), List.mem_map.mpr ⟨e, he, by simp [hk]⟩, rfl⟩
  · rw [if_neg h, keysContain_iff]
    exact ⟨(k, v), by simp, rfl⟩

lemma keysContain_mapSet_mono (m : List (String × String)) (k v q : String)
    (h : keysContain m q = true) : keysContain (mapSet m k v) q = true := by
  unfold mapSet
  by_cases hk : keysContain m k = true
  · rw [if_pos hk]
    rw [keysContain_iff] at h ⊢
    obtain ⟨e, he, hq⟩ := h
    by_cases hek : e.1 = k
    · refine ⟨(k, v), List.mem_map.mpr ⟨e, he, by simp [hek]⟩, ?_⟩
      rw [← hek]
      exact hq
    · exact ⟨e, List.mem_map.mpr ⟨e, he, by simp [hek]⟩, hq⟩
  · rw [if_neg hk]
    rw [keysContain_iff] at h ⊢
    obtain ⟨e, he, hq⟩ := h
    exact ⟨e, List.mem_append_left _ he, hq⟩

lemma consumeOne_device (s : Service) (c pid : String) (k : Option String)
    (o : ConsumeOutcome) : (consumeOne s c pid k o).1.device = s.device := by
  cases o <;> unfold consumeOne consumeAudio consumeVideo <;> split <;> split <;> rfl

lemma consumeOne_recv (s : Service) (c pid : String) (k : Option String)
    (o : ConsumeOutcome) : (consumeOne s c pid k o).1.recvTransport = s.recvTransport := by
  cases o <;> unfold consumeOne consumeAudio consumeVideo <;> split <;> split <;> rfl

lemma consumeOne_status (s : Service) (c pid : String) (k : Option String)
    (o : ConsumeOutcome) :
    (consumeOne s c pid k o).1.callState.status = s.callState.status := by
  cases o <;> unfold consumeOne consumeAudio consumeVideo <;> split <;> split <;> rfl

lemma consumeOne_keys_mono (s : Service) (c pid : String) (k : Option String)
    (o : ConsumeOutcome) (q : String) (h : keysContain s.consumers q = true) :
    keysContain (consumeOne s c pid k o).1.consumers q = true := by
  cases o <;> unfold consumeOne consumeAudio consumeVideo <;> split <;> split <;> first
    | exact h
    | exact keysContain_mapSet_mono _ _ _ _ h

lemma consumeOne_keys_self (s : Service) (c pid : String) (k : Option String)
    (o : ConsumeOutcome) (hd : s.device = true) (hr : s.recvTransport = true)
    (ho : o = .success) :
    keysContain (consumeOne s c pid k o).1.consumers pid = true := by
  subst ho
  unfold consumeOne consumeAudio consumeVideo
  split <;> simp [hd, hr] <;> exact keysContain_mapSet_self _ _ _

lemma countConsume_consumeOne_ready (s : Service) (c pid : String)
    (k : Option String) (o : ConsumeOutcome) (q : String)
    (hd : s.device = true) (hr : s.recvTransport = true) :
    countConsume (consumeOne s c pid k o).2 q = if pid = q then 1 else 0 := by
  cases o <;> unfold consumeOne consumeAudio consumeVideo countConsume <;>
    split <;> simp [hd, hr, List.countP_cons]

lemma countConsume_consumeOne_ne (s : Service) (c pid : String)
    (k : Option String) (o : ConsumeOutcome) (q : String) (hne : pid ≠ q) :
    countConsume (consumeOne s c pid k o).2 q = 0 := by
  cases o <;> unfold consumeOne consumeAudio consumeVideo countConsume <;>
    split <;> split <;> simp [List.countP_cons, hne]

lemma drainLoop_device (env : String → ConsumeOutcome) (s : Service)
    (pending : List PendingProducer) :
    (drainLoop env s pending).1.device = s.device := by
  induction pending generalizing s with
  | nil => rfl
  | cons d rest ih =>
      unfold drainLoop
      rw [ih, consumeOne_device]

lemma drainLoop_recv (env : String → ConsumeOutcome) (s : Service)
    (pending : List PendingProducer) :
    (drainLoop env s pending).1.recvTransport = s.recvTransport := by
  induction pending generalizing s with
  | nil => rfl
  | cons d rest ih =>
      unfold drainLoop
      rw [ih, consumeOne_recv]

lemma countConsume_drainLoop (env : String → ConsumeOutcome) (s : Service)
    (pending : List PendingProducer) (q : String)
    (hd : s.device = true) (hr : s.recvTransport = true) :
    countConsume (drainLoop env s pending).2 q =
      pending.countP (fun d => d.producerId = q) := by
  induction pending generalizing s with
  | nil => simp [drainLoop, countConsume]
  | cons d rest ih =>
      unfold drainLoop
      rw [countConsume_append,
        countConsume_consumeOne_ready s d.callId d.producerId d.kind
          (env d.producerId) q hd hr,
        ih _ (by rw [consumeOne_device]; exact hd) (by rw [consumeOne_recv]; exact hr),
        List.countP_cons]
      simp only [decide_eq_true_eq]
      split_ifs <;> omega

lemma drainLoop_keys_mono (env : String → ConsumeOutcome) (s : Service)
    (pending : List PendingProducer) (q : String)
    (h : keysContain s.consumers q = true) :
    keysContain (drainLoop env s pending).1.consumers q = true := by
  induction pending generalizing s with
  | nil => exact h
  | cons d rest ih =>
      unfold drainLoop
      exact ih _ (consumeOne_keys_mono _ _ _ _ _ _ h)

lemma drainLoop_keys_of_mem (env : String → ConsumeOutcome) (s : Service)
    (pending : List PendingProducer) (q : String)
    (hd : s.device = true) (hr : s.recvTransport = true)
    (henv : env q = ConsumeOutcome.success)
    (hmem : ∃ d ∈ pending, d.producerId = q) :
    keysContain (drainLoop env s pending).1.consumers q = true := by
  induction pending generalizing s with
  | nil =>
      obtain ⟨d, hd0, _⟩ := hmem
      exact absurd hd0 (List.not_mem_nil _)
  | cons d rest ih =>
      unfold drainLoop
      obtain ⟨e, he, heq⟩ := hmem
      rcases List.mem_cons.mp he with h0 | h0
      · have hdq : d.producerId = q := by rw [← h0]; exact heq
        have hk := consumeOne_keys_self s d.callId d.producerId d.kind
          (env d.producerId) hd hr (by rw [hdq]; exact henv)
        rw [← hdq]
        exact drainLoop_keys_mono _ _ _ _ hk
      · exact ih _ (by rw [consumeOne_device]; exact hd)
          (by rw [consumeOne_recv]; exact hr) ⟨e, h0, heq⟩

lemma existingLoop_keys_mono (env : String → ConsumeOutcome) (s : Service)
    (c : String) (ps : List ExistingProducer) (q : String)
    (h : keysContain s.consumers q = true) :
    keysContain (existingLoop env s c ps).1.consumers q = true := by
  induction ps generalizing s with
  | nil => exact h
  | cons p rest ih =>
      unfold existingLoop
      split
      · exact ih s h
      · exact ih _ (consumeOne_keys_mono _ _ _ _ _ _ h)

lemma countConsume_existingLoop_zero (env : String → ConsumeOutcome) (s : Service)
    (c : String) (ps : List ExistingProducer) (q : String)
    (hq : keysContain s.consumers q = true) :
    countConsume (existingLoop env s c ps).2 q = 0 := by
  induction ps generalizing s with
  | nil => simp [existingLoop, countConsume]
  | cons p rest ih =>
      unfold existingLoop
      split
      · exact ih s hq
      · rename_i hnp
        rw [countConsume_append,
          countConsume_consumeOne_ne _ _ _ _ _ _ (fun he => hnp (by rw [he]; exact hq)),
          ih _ (consumeOne_keys_mono _ _ _ _ _ _ hq)]

/-- C2 counterexample: a producer notification queued before the receive
transport existed IS permanently lost when its consume round-trip fails
during the drain pass (the failure is caught and logged, the entry was
already removed from the queue) and the server does not report the
producer in the `getExistingProducers` pass: afterwards the producer is
neither queued nor consumed. -/
theorem c2_counterexample :
    (drainPendingProducers
        { mkService { getDefaultState with status := .active } with
          device := true, recvTransport := true,
          pendingProducers := [⟨"g1", "p1", 5, none⟩] }
        (fun _ => .consumeFails)).1.pendingProducers = [] ∧
    (requestExistingProducers
        (drainPendingProducers
          { mkService { getDefaultState with status := .active } with
            device := true, recvTransport := true,
            pendingProducers := [⟨"g1", "p1", 5, none⟩] }
          (fun _ => .consumeFails)).1
        "g1" [] (fun _ => .consumeFails)).1.consumers = [] := by
  exact ⟨rfl, rfl⟩

/-- C2 (amended): a `call:newProducer` notification arriving before the
receive transport exists (or while the call is not `active`) is appended
to the pending queue and dropped nowhere; and once setup has created the
receive transport, the drain pass issues exactly one consume request for a
queued producer, and — provided that consume round-trip succeeds — the
producer ends up registered in the consumers map and the subsequent
`getExistingProducers` pass issues no second request for it, however the
server list overlaps the queue.  (When the consume round-trip fails, the
failure is caught and logged and the notification, already removed from
the queue, is recovered only if the existing-producers pass still reports
it.) -/
theorem c2_pending_producer_consumed_exactly_once (s : Service)
    (p d : PendingProducer) (c : String) (serverProducers : List ExistingProducer)
    (envDrain envExist : String → ConsumeOutcome)
    (hd : s.device = true) (hr : s.recvTransport = true)
    (hcount : s.pendingProducers.countP (fun x => x.producerId = p.producerId) = 1)
    (henv : envDrain p.producerId = .success) :
    (∀ (s2 : Service) (o : ConsumeOutcome),
      s2.callState.status ≠ .active ∨ (s2.device && s2.recvTransport) = false →
      handleNewProducer s2 d o =
        ({ s2 with pendingProducers := s2.pendingProducers ++ [d] }, [])) ∧
    countConsume ((drainPendingProducers s envDrain).2 ++
        (requestExistingProducers (drainPendingProducers s envDrain).1 c
          serverProducers envExist).2)
      p.producerId = 1 ∧
    keysContain (requestExistingProducers (drainPendingProducers s envDrain).1 c
        serverProducers envExist).1.consumers p.producerId = true := by
  have hne : s.pendingProducers ≠ [] := by
    intro h
    rw [h] at hcount
    simp at hcount
  have hdrain : drainPendingProducers s envDrain =
      drainLoop envDrain { s with pendingProducers := [] } s.pendingProducers := by
    unfold drainPendingProducers
    simp [hne]
  have hmem : ∃ x ∈ s.pendingProducers, x.producerId = p.producerId := by
    have hpos : 0 < s.pendingProducers.countP
        (fun x => decide (x.producerId = p.producerId)) := by
      omega
    obtain ⟨x, hx, hxq⟩ := List.countP_pos_iff.mp hpos
    exact ⟨x, hx, of_decide_eq_true hxq⟩
  have hkeys : keysContain (drainPendingProducers s envDrain).1.consumers
      p.producerId = true := by
    rw [hdrain]
    exact drainLoop_keys_of_mem _ _ _ _ hd hr henv hmem
  refine ⟨?_, ?_, ?_⟩
  · intro s2 o h
    rcases h with h | h
    · simp [handleNewProducer, h]
    · by_cases hs : s2.callState.status = CallStatus.active
      · simp [handleNewProducer, hs, h]
      · simp [handleNewProducer, hs]
  · rw [countConsume_append, hdrain,
      countConsume_drainLoop envDrain { s with pendingProducers := [] }
        s.pendingProducers p.producerId hd hr,
      hcount]
    unfold requestExistingProducers
    rw [countConsume_existingLoop_zero]
    rw [← hdrain]
    exact hkeys
  · unfold requestExistingProducers
    exact existingLoop_keys_mono _ _ _ _ _ hkeys

/-- Closed witness for `c2_pending_producer_consumed_exactly_once`: a
producer queued before setup whose consume succeeds, and which is also
reported by `getExistingProducers`, gets exactly one consume request. -/
theorem c2_witness :
    countConsume
      ((drainPendingProducers { mkService { getDefaultState with status := .active } with
          device := true, recvTransport := true,
          pendingProducers := [⟨"g1", "p1", 5, none⟩] } (fun _ => .success)).2 ++
        (requestExistingProducers
          (drainPendingProducers { mkService { getDefaultState with status := .active } with
            device := true, recvTransport := true,
            pendingProducers := [⟨"g1", "p1", 5, none⟩] } (fun _ => .success)).1
          "g1" [⟨"p1", 5, "audio"⟩] (fun _ => .success)).2)
      "p1" = 1 := by
  exact (c2_pending_producer_consumed_exactly_once
    { mkService { getDefaultState with status := .active } with
      device := true, recvTransport := true,
      pendingProducers := [⟨"g1", "p1", 5, none⟩] }
    ⟨"g1", "p1", 5, none⟩ ⟨"g1", "p1", 5, none⟩ "g1" [⟨"p1", 5, "audio"⟩]
    (fun _ => .success) (fun _ => .success)
    rfl rfl (by decide) rfl).2.1

/-- Recognizes the start-of-attempt marker in a setup trace. -/
def isAttemptStart : Effect → Bool
  | .attemptStart _ => true
  | _ => false

/-- Number of setup attempts recorded in an effect trace. -/
def countAttempts (es : List Effect) : Nat :=
  es.countP isAttemptStart

lemma countAttempts_nil : countAttempts [] = 0 := rfl

lemma countAttempts_cons (e : Effect) (es : List Effect) :
    countAttempts (e :: es) = countAttempts es + if isAttemptStart e then 1 else 0 := by
  unfold countAttempts
  rw [List.countP_cons]

lemma countAttempts_append (a b : List Effect) :
    countAttempts (a ++ b) = countAttempts a + countAttempts b :=
  List.countP_append _ _ _

lemma countAttempts_consumeOne (s : Service) (c pid : String) (k : Option String)
    (o : ConsumeOutcome) : countAttempts (consumeOne s c pid k o).2 = 0 := by
  cases o <;> unfold consumeOne consumeAudio consumeVideo countAttempts <;>
    split <;> split <;> rfl

lemma countAttempts_drainLoop (env : String → ConsumeOutcome) (s : Service)
    (pending : List PendingProducer) :
    countAttempts (drainLoop env s pending).2 = 0 := by
  induction pending generalizing s with
  | nil => rfl
  | cons d rest ih =>
      unfold drainLoop
      rw [countAttempts_append, countAttempts_consumeOne, ih]

lemma countAttempts_existingLoop (env : String → ConsumeOutcome) (s : Service)
    (c : String) (ps : List ExistingProducer) :
    countAttempts (existingLoop env s c ps).2 = 0 := by
  induction ps generalizing s with
  | nil => rfl
  | cons p rest ih =>
      unfold existingLoop
      split
      · exact ih s
      · rw [countAttempts_append, countAttempts_consumeOne, ih]

lemma countAttempts_drainPendingProducers (s : Service)
    (env : String → ConsumeOutcome) :
    countAttempts (drainPendingProducers s env).2 = 0 := by
  unfold drainPendingProducers
  split
  · rfl
  · exact countAttempts_drainLoop _ _ _

lemma countAttempts_setupSuccess (s : Service) (sp : List ExistingProducer)
    (envD envE : String → ConsumeOutcome) :
    countAttempts (setupMediasoupSuccess s sp envD envE).2 = 0 := by
  simp only [setupMediasoupSuccess, requestExistingProducers]
  rw [countAttempts_append, countAttempts_drainPendingProducers,
    countAttempts_existingLoop]

lemma existingLoop_status (env : String → ConsumeOutcome) (s : Service)
    (c : String) (ps : List ExistingProducer) :
    (existingLoop env s c ps).1.callState.status = s.callState.status := by
  induction ps generalizing s with
  | nil => rfl
  | cons p rest ih =>
      unfold existingLoop
      split
      · exact ih s
      · rw [ih, consumeOne_status]

lemma drainLoop_status (env : String → ConsumeOutcome) (s : Service)
    (pending : List PendingProducer) :
    (drainLoop env s pending).1.callState.status = s.callState.status := by
  induction pending generalizing s with
  | nil => rfl
  | cons d rest ih =>
      unfold drainLoop
      rw [ih, consumeOne_status]

lemma drainPendingProducers_status (s : Service) (env : String → ConsumeOutcome) :
    (drainPendingProducers s env).1.callState.status = s.callState.status := by
  unfold drainPendingProducers
  split
  · rfl
  · rw [drainLoop_status]

lemma setupMediasoupSuccess_status (s : Service) (sp : List ExistingProducer)
    (envD envE : String → ConsumeOutcome) :
    (setupMediasoupSuccess s sp envD envE).1.callState.status = s.callState.status := by
  simp only [setupMediasoupSuccess, requestExistingProducers]
  split <;> simp [existingLoop_status, drainPendingProducers_status]

/-- C3: with the source default of 2 attempts, the retried setup makes at
most 2 attempts; a failed attempt is followed by a mediasoup cleanup, and
when the status observed after the failure has left `active` the retry is
abandoned immediately (no sleep, no second attempt); two failures while
still `active` make exactly 2 attempts separated by a 1000 ms sleep and —
through the `call:accepted` handler — transition the call to `error` and
issue an end-call request; one failure followed by a success yields 2
attempts (one retry) and an `active` call. -/
theorem c3_setup_retry_policy (s : Service) (cid : String)
    (sp : List ExistingProducer) (envD envE : String → ConsumeOutcome)
    (outcomes : Nat → AttemptOutcome) :
    countAttempts (setupMediasoupWithRetry s sp envD envE outcomes 2).2.2 ≤ 2 ∧
    ((outcomes 1).succeeds = false → (outcomes 1).statusAtCatch ≠ .active →
      setupMediasoupWithRetry s sp envD envE outcomes 2 =
        (cleanupMediasoup { s with callState :=
            { s.callState with status := (outcomes 1).statusAtCatch } },
          .abandonedErr, [Effect.attemptStart 1, Effect.mediaCleanup])) ∧
    (outcomes 1 = ⟨false, .active⟩ → outcomes 2 = ⟨false, .active⟩ →
      (setupMediasoupWithRetry s sp envD envE outcomes 2).2.1 = .exhaustedErr ∧
      (setupMediasoupWithRetry s sp envD envE outcomes 2).2.2 =
        [Effect.attemptStart 1, Effect.mediaCleanup, Effect.sleep 1000,
          Effect.attemptStart 2, Effect.mediaCleanup] ∧
      (s.callState.callId = some cid →
        Effect.broadcast .error ∈ (handleCallAccepted s cid sp envD envE outcomes).2 ∧
        (Effect.emitEnd cid ∈ (handleCallAccepted s cid sp envD envE outcomes).2 ∨
          Effect.emitLeaveGroup cid ∈ (handleCallAccepted s cid sp envD envE outcomes).2))) ∧
    (outcomes 1 = ⟨false, .active⟩ → (outcomes 2).succeeds = true →
      (setupMediasoupWithRetry s sp envD envE outcomes 2).2.1 = .ok ∧
      countAttempts (setupMediasoupWithRetry s sp envD envE outcomes 2).2.2 = 2 ∧
      (∃ tail, (setupMediasoupWithRetry s sp envD envE outcomes 2).2.2 =
        Effect.attemptStart 1 :: Effect.mediaCleanup :: Effect.sleep 1000 ::
          Effect.attemptStart 2 :: tail) ∧
      (s.callState.callId = some cid →
        (handleCallAccepted s cid sp envD envE outcomes).1.callState.status = .active)) := by
  refine ⟨?_, ?_, ?_, ?_⟩
  · by_cases h1 : (outcomes 1).succeeds
    · simp [setupMediasoupWithRetry, retryLoop, h1, countAttempts_cons,
        countAttempts_setupSuccess, isAttemptStart]
    · by_cases h1s : (outcomes 1).statusAtCatch = CallStatus.active
      · by_cases h2 : (outcomes 2).succeeds
        · simp [setupMediasoupWithRetry, retryLoop, h1, h1s, h2, countAttempts_cons,
            countAttempts_setupSuccess, isAttemptStart]
        · by_cases h2s : (outcomes 2).statusAtCatch = CallStatus.active <;>
            simp [setupMediasoupWithRetry, retryLoop, h1, h1s, h2, h2s,
              countAttempts_cons, countAttempts_nil, isAttemptStart]
      · simp [setupMediasoupWithRetry, retryLoop, h1, h1s, countAttempts_cons,
          countAttempts_nil, isAttemptStart]
  · intro h1 h1s
    simp [setupMediasoupWithRetry, retryLoop, h1, h1s]
  · intro h1 h2
    have h1s : (outcomes 1).succeeds = false := by rw [h1]
    have h1c : (outcomes 1).statusAtCatch = CallStatus.active := by rw [h1]
    have h2s : (outcomes 2).succeeds = false := by rw [h2]
    have h2c : (outcomes 2).statusAtCatch = CallStatus.active := by rw [h2]
    refine ⟨?_, ?_, ?_⟩
    · simp [setupMediasoupWithRetry, retryLoop, h1s, h1c, h2s, h2c]
    · simp [setupMediasoupWithRetry, retryLoop, h1s, h1c, h2s, h2c]
    · intro hcid
      constructor
      · simp [handleCallAccepted, hcid, setupMediasoupWithRetry, retryLoop,
          h1s, h1c, h2s, h2c, endCall, startDurationTimer, cleanupMediasoup_callState]
      · by_cases hg : s.callState.isGroupCall
        · right
          simp [handleCallAccepted, hcid, setupMediasoupWithRetry, retryLoop,
            h1s, h1c, h2s, h2c, endCall, startDurationTimer, hg, cleanupMediasoup_callState]
        · left
          simp [handleCallAccepted, hcid, setupMediasoupWithRetry, retryLoop,
            h1s, h1c, h2s, h2c, endCall, startDurationTimer, hg, cleanupMediasoup_callState]
  · intro h1 h2
    have h1s : (outcomes 1).succeeds = false := by rw [h1]
    have h1c : (outcomes 1).statusAtCatch = CallStatus.active := by rw [h1]
    refine ⟨?_, ?_, ?_, ?_⟩
    · simp [setupMediasoupWithRetry, retryLoop, h1s, h1c, h2]
    · simp [setupMediasoupWithRetry, retryLoop, h1s, h1c, h2, countAttempts_cons,
        countAttempts_setupSuccess, isAttemptStart]
    · simp only [setupMediasoupWithRetry, retryLoop, h1s, h1c, h2,
        Bool.false_eq_true, if_false, ne_eq, not_true_eq_false, if_true,
        OfNat.one_ne_ofNat, if_neg, reduceIte]
      exact ⟨_, rfl⟩
    · intro hcid
      simp [handleCallAccepted, hcid, setupMediasoupWithRetry, retryLoop,
        h1s, h1c, h2, setupMediasoupSuccess_status, startDurationTimer,
        cleanupMediasoup_callState]

/-- Closed witness for `c3_setup_retry_policy`: with a failure on the
first attempt (call still active) and a success on the second, the
`call:accepted` handler leaves the call `active`. -/
theorem c3_witness :
    (handleCallAccepted
        (mkService { getDefaultState with status := .ringing, callId := some "c1" })
        "c1" [] (fun _ => .success) (fun _ => .success)
        (fun n => if n = 1 then ⟨false, .active⟩ else ⟨true, .active⟩)).1.callState.status =
      .active := by
  exact ((c3_setup_retry_policy
    (mkService { getDefaultState with status := .ringing, callId := some "c1" })
    "c1" [] (fun _ => .success) (fun _ => .success)
    (fun n => if n = 1 then ⟨false, .active⟩ else ⟨true, .active⟩)).2.2.2
    rfl rfl).2.2.2 rfl

end MsgX
